import Mathlib

/-!
Verification of the bongocat scraping core.

Shallow embedding of the concurrent HTTP fetching core of the bongocat
framework: the rate limiter (`core_scraper/rate_limiter.py`), the proxy
rotation layer (`core_scraper/proxy_handler.py`), the synchronous and
asynchronous session managers (`core_scraper/session_manager.py`,
`core_scraper/async_session_manager.py`) and the concurrent batch fan-out
(`core_scraper/async_scraper.py`).

Conventions of the embedding:
* Python floats are modelled as rationals (`ℚ`); Python ints as `ℤ` or `ℕ`.
* Wall-clock time is passed explicitly: every operation that reads
  `time.time()` takes the current time as a `now : ℚ` argument, and an
  operation that sleeps returns the time at which it finishes.
* `random.choice` is modelled by an arbitrary index `pick : ℕ`, reduced
  modulo the list length; on an empty list it has no element to return,
  which mirrors the `IndexError` the Python call raises there.
* Code that may raise is modelled in `Except String`; an `Except.error`
  value is a raised exception carrying the exception's message.
-/

namespace Bongocat

/-! ### RateLimiter (`bongocat/core_scraper/rate_limiter.py`) -/

/-- State of `RateLimiter`.  `request_times` is the `deque` of recent
request timestamps (bounded to `burst_limit * 2` entries). -/
structure RateLimiter where
  requests_per_second : ℚ
  burst_limit : ℕ
  min_interval : ℚ
  last_request_time : ℚ
  request_times : List ℚ
  adaptive_mode : Bool
  current_delay : ℚ
  success_count : ℕ
  failure_count : ℕ
deriving Repr, DecidableEq

/-- `RateLimiter.__init__`: `min_interval = 1/rate` for positive rates and
`0` otherwise; `current_delay` starts at `min_interval`. -/
def mkRateLimiter (requests_per_second : ℚ) (burst_limit : ℕ) : RateLimiter :=
  { requests_per_second := requests_per_second
    burst_limit := burst_limit
    min_interval := if 0 < requests_per_second then 1 / requests_per_second else 0
    last_request_time := 0
    request_times := []
    adaptive_mode := false
    current_delay := if 0 < requests_per_second then 1 / requests_per_second else 0
    success_count := 0
    failure_count := 0 }

/-- Appending to a Python `deque(maxlen := m)`: when full, the leftmost
entry is evicted; with `maxlen = 0` nothing is ever stored. -/
def dequeAppend (maxlen : ℕ) (l : List ℚ) (x : ℚ) : List ℚ :=
  if maxlen = 0 then []
  else if l.length < maxlen then l ++ [x]
  else (l ++ [x]).drop (l.length + 1 - maxlen)

/-- `RateLimiter._update_burst_tracking`: trim entries at least 1s old from
the front, append the current timestamp, and sleep an extra 0.5s when the
window has reached `burst_limit` entries.  Returns the time at which the
call finishes together with the updated state. -/
def updateBurstTracking (now : ℚ) (rl : RateLimiter) : ℚ × RateLimiter :=
  let trimmed := rl.request_times.dropWhile (fun t => decide (1 ≤ now - t))
  let times := dequeAppend (rl.burst_limit * 2) trimmed now
  let extra : ℚ := if rl.burst_limit ≤ times.length then 1 / 2 else 0
  (now + extra, { rl with request_times := times })

/-- `RateLimiter.wait`: in adaptive mode sleep `current_delay`; in fixed
mode sleep the remainder of `min_interval` since the last permitted
request; then update burst tracking (possibly sleeping 0.5s more) and
record the post-sleep time as `last_request_time`.  Returns the finish
time and the updated state. -/
def RateLimiter.wait (now : ℚ) (rl : RateLimiter) : ℚ × RateLimiter :=
  let t1 : ℚ :=
    if rl.adaptive_mode then now + rl.current_delay
    else if now - rl.last_request_time < rl.min_interval then
      now + (rl.min_interval - (now - rl.last_request_time))
    else now
  let r2 := updateBurstTracking t1 rl
  (r2.1, { r2.2 with last_request_time := r2.1 })

/-- `N` sequential `wait()` calls.  Entry `d` of the list is the idle time
the caller spends between the previous call's return and this call's
start (the first call starts at `prev + d`).  Returns the list of finish
times, in call order. -/
def runWaits (rl : RateLimiter) (prev : ℚ) : List ℚ → List ℚ
  | [] => []
  | d :: ds =>
    (RateLimiter.wait (prev + d) rl).1 ::
      runWaits (RateLimiter.wait (prev + d) rl).2 (RateLimiter.wait (prev + d) rl).1 ds

/-- `RateLimiter.enable_adaptive_mode`. -/
def RateLimiter.enable_adaptive_mode (rl : RateLimiter) : RateLimiter :=
  { rl with adaptive_mode := true }

/-- `RateLimiter.disable_adaptive_mode`: also resets `current_delay` to
`min_interval`. -/
def RateLimiter.disable_adaptive_mode (rl : RateLimiter) : RateLimiter :=
  { rl with adaptive_mode := false, current_delay := rl.min_interval }

/-- `RateLimiter.report_success`: in adaptive mode, every 5th consecutive
success multiplies `current_delay` by 0.9, floored at `min_interval`. -/
def RateLimiter.report_success (rl : RateLimiter) : RateLimiter :=
  if rl.adaptive_mode then
    let rl2 := { rl with success_count := rl.success_count + 1 }
    if 5 ≤ rl2.success_count then
      { rl2 with
        current_delay := max rl2.min_interval (rl2.current_delay * (9 / 10))
        success_count := 0 }
    else rl2
  else rl

/-- `RateLimiter.report_failure`: in adaptive mode, multiply
`current_delay` by 2.0 for HTTP 429, by 1.5 for 502/503/504, by 1.2
otherwise; cap at 30s; reset the success streak. -/
def RateLimiter.report_failure (status_code : Option ℤ) (rl : RateLimiter) : RateLimiter :=
  if rl.adaptive_mode then
    let rl2 := { rl with failure_count := rl.failure_count + 1 }
    let d :=
      if status_code = some 429 then rl2.current_delay * 2
      else if status_code = some 503 ∨ status_code = some 502 ∨ status_code = some 504 then
        rl2.current_delay * (3 / 2)
      else rl2.current_delay * (6 / 5)
    { rl2 with current_delay := min d 30, success_count := 0 }
  else rl

/-- `RateLimiter.set_rate`: recompute `min_interval`; reset
`current_delay` to it only when adaptive mode is off. -/
def RateLimiter.set_rate (requests_per_second : ℚ) (rl : RateLimiter) : RateLimiter :=
  let rl2 := { rl with
    requests_per_second := requests_per_second
    min_interval := if 0 < requests_per_second then 1 / requests_per_second else 0 }
  if rl2.adaptive_mode then rl2
  else { rl2 with current_delay := rl2.min_interval }

/-! ### ProxyHandler (`bongocat/core_scraper/proxy_handler.py`) -/

/-- State of `ProxyHandler`: the base pool and the two partitions filled
by the last validation pass. -/
structure ProxyHandler where
  proxy_list : List String
  working_proxies : List String
  failed_proxies : List String
  last_validation : ℚ
  validation_interval : ℚ
deriving Repr, DecidableEq

/-- `ProxyHandler._validate_proxies`: repartition the base pool by probing
every proxy.  `probe p = true` models a probe of `p` that returns status
200 without raising; everything else lands in `failed_proxies`. -/
def validateProxies (probe : String → Bool) (now : ℚ) (p : ProxyHandler) : ProxyHandler :=
  { p with
    working_proxies := p.proxy_list.filter probe
    failed_proxies := p.proxy_list.filter (fun x => !probe x)
    last_validation := now }

/-- `ProxyHandler.__init__`: start with empty partitions and
`last_validation = 0`; validate immediately when the initial list is
non-empty. -/
def mkProxyHandler (probe : String → Bool) (now : ℚ) (proxy_list : List String) : ProxyHandler :=
  let base : ProxyHandler :=
    { proxy_list := proxy_list
      working_proxies := []
      failed_proxies := []
      last_validation := 0
      validation_interval := 300 }
  if proxy_list.isEmpty then base else validateProxies probe now base

/-- `ProxyHandler.add_proxy`: append to the base pool only, when absent. -/
def ProxyHandler.add_proxy (proxy : String) (p : ProxyHandler) : ProxyHandler :=
  if proxy ∈ p.proxy_list then p
  else { p with proxy_list := p.proxy_list ++ [proxy] }

/-- `ProxyHandler.remove_proxy`: remove the proxy from the base pool and
from both partitions (first occurrence each, as `list.remove` does). -/
def ProxyHandler.remove_proxy (proxy : String) (p : ProxyHandler) : ProxyHandler :=
  { p with
    proxy_list := if proxy ∈ p.proxy_list then p.proxy_list.erase proxy else p.proxy_list
    working_proxies :=
      if proxy ∈ p.working_proxies then p.working_proxies.erase proxy else p.working_proxies
    failed_proxies :=
      if proxy ∈ p.failed_proxies then p.failed_proxies.erase proxy else p.failed_proxies }

/-- `random.choice`, modelled by an arbitrary pick index reduced modulo
the length; `none` on the empty list (where Python raises `IndexError`). -/
def randomChoice (pick : ℕ) : List String → Option String
  | [] => none
  | x :: xs => (x :: xs).get? (pick % (xs.length + 1))

/-- Outcome of `ProxyHandler.get_proxy`: `none` returned, a proxy
returned, or an `IndexError` escaping from `random.choice([])`. -/
inductive GetProxyResult where
  | noProxy : GetProxyResult
  | proxy (p : String) : GetProxyResult
  | indexError : GetProxyResult
deriving Repr, DecidableEq

/-- `ProxyHandler.get_proxy`: return `None` when `working_proxies` is
empty; otherwise lazily revalidate when the validation interval has
elapsed, then `random.choice` from the (possibly just replaced) healthy
list. -/
def ProxyHandler.get_proxy (probe : String → Bool) (now : ℚ) (pick : ℕ)
    (p : ProxyHandler) : GetProxyResult × ProxyHandler :=
  if p.working_proxies = [] then (GetProxyResult.noProxy, p)
  else
    let p2 :=
      if p.validation_interval < now - p.last_validation then validateProxies probe now p else p
    match randomChoice pick p2.working_proxies with
    | none => (GetProxyResult.indexError, p2)
    | some q => (GetProxyResult.proxy q, p2)

/-! ### Session statistics (`session_manager.py`, `async_session_manager.py`) -/

/-- One entry of the `session_stats` defaultdict. -/
structure SessionStats where
  requests_made : ℕ
  failures : ℕ
  avg_response_time : ℚ
  last_failure_time : Option ℚ
  consecutive_failures : ℕ
deriving Repr, DecidableEq

/-- Default value the `defaultdict` creates for a fresh session id. -/
def SessionStats.default : SessionStats :=
  { requests_made := 0
    failures := 0
    avg_response_time := 0
    last_failure_time := none
    consecutive_failures := 0 }

/-- `SessionManager._monitor_response` (sync): count the request, fold the
elapsed time (when present) into the EMA, and count a failure iff the
status is ≥ 400. -/
def monitorResponse (now : ℚ) (status : ℤ) (elapsed : Option ℚ) (s : SessionStats) :
    SessionStats :=
  let s1 := { s with requests_made := s.requests_made + 1 }
  let s2 :=
    match elapsed with
    | none => s1
    | some t =>
      if s1.avg_response_time = 0 then { s1 with avg_response_time := t }
      else { s1 with avg_response_time := (7 / 10) * s1.avg_response_time + (3 / 10) * t }
  if 400 ≤ status then
    { s2 with
      failures := s2.failures + 1
      last_failure_time := some now
      consecutive_failures := s2.consecutive_failures + 1 }
  else { s2 with consecutive_failures := 0 }

/-- `AsyncSessionManager._monitor_response`: as the sync version but the
elapsed time is always measured. -/
def monitorResponseAsync (now : ℚ) (status : ℤ) (elapsed : ℚ) (s : SessionStats) :
    SessionStats :=
  monitorResponse now status (some elapsed) s

/-- `AsyncSessionManager._monitor_failure`: count a failure for a request
whose attempts all raised — without counting the request itself. -/
def monitorFailure (now : ℚ) (s : SessionStats) : SessionStats :=
  { s with
    failures := s.failures + 1
    last_failure_time := some now
    consecutive_failures := s.consecutive_failures + 1 }

/-- `defaultdict` update: apply `f` to the entry of `sid`, creating it
from the default value when absent. -/
def updateStats (sid : String) (f : SessionStats → SessionStats) :
    List (String × SessionStats) → List (String × SessionStats)
  | [] => [(sid, f SessionStats.default)]
  | (k, v) :: rest =>
    if k = sid then (k, f v) :: rest else (k, v) :: updateStats sid f rest

/-- A recordable outcome on the synchronous `SessionManager`: every
outcome flows through `_monitor_response`. -/
inductive SyncEvent where
  | response (sid : String) (status : ℤ) (elapsed : Option ℚ) (now : ℚ) : SyncEvent

/-- A recordable outcome on the `AsyncSessionManager`: a monitored
response, or a request whose retries were exhausted by exceptions. -/
inductive AsyncEvent where
  | response (sid : String) (status : ℤ) (elapsed : ℚ) (now : ℚ) : AsyncEvent
  | failure (sid : String) (now : ℚ) : AsyncEvent

def applySyncEvent (stats : List (String × SessionStats)) : SyncEvent →
    List (String × SessionStats)
  | SyncEvent.response sid status elapsed now =>
    updateStats sid (monitorResponse now status elapsed) stats

def applyAsyncEvent (stats : List (String × SessionStats)) : AsyncEvent →
    List (String × SessionStats)
  | AsyncEvent.response sid status elapsed now =>
    updateStats sid (monitorResponseAsync now status elapsed) stats
  | AsyncEvent.failure sid now => updateStats sid (monitorFailure now) stats

/-- The stats table reached from a fresh sync manager by a sequence of
recorded outcomes. -/
def runSyncEvents (es : List SyncEvent) : List (String × SessionStats) :=
  es.foldl applySyncEvent []

/-- The stats table reached from a fresh async manager by a sequence of
recorded outcomes. -/
def runAsyncEvents (es : List AsyncEvent) : List (String × SessionStats) :=
  es.foldl applyAsyncEvent []

def totalRequests (stats : List (String × SessionStats)) : ℕ :=
  (stats.map (fun p => p.2.requests_made)).sum

def totalFailures (stats : List (String × SessionStats)) : ℕ :=
  (stats.map (fun p => p.2.failures)).sum

/-- `_update_global_failure_rate` (identical in both managers): summed
failures over summed requests, `0` when nothing was recorded. -/
def updateGlobalFailureRate (stats : List (String × SessionStats)) : ℚ :=
  if 0 < totalRequests stats then
    (totalFailures stats : ℚ) / (totalRequests stats : ℚ)
  else 0

/-! ### Adaptive retry/backoff tiers (both session managers) -/

/-- `_calculate_adaptive_retries` (identical in both managers). -/
def calculateAdaptiveRetries (global_failure_rate : ℚ) (max_retries : ℤ) : ℤ :=
  if global_failure_rate < 1 / 10 then max 1 (max_retries - 1)
  else if global_failure_rate < 3 / 10 then max_retries
  else min (max_retries + 2) 10

/-- `SessionManager._calculate_adaptive_backoff` (sync tiers 0.5/1.0/2.0). -/
def calculateAdaptiveBackoff (global_failure_rate : ℚ) : ℚ :=
  if global_failure_rate < 1 / 10 then 1 / 2
  else if global_failure_rate < 3 / 10 then 1
  else 2

/-- `AsyncSessionManager._calculate_adaptive_backoff` (tiers 0.3/0.5/1.0). -/
def calculateAdaptiveBackoffAsync (global_failure_rate : ℚ) : ℚ :=
  if global_failure_rate < 1 / 10 then 3 / 10
  else if global_failure_rate < 3 / 10 then 1 / 2
  else 1

/-! ### `AsyncSessionManager.make_request` retry loop -/

/-- The retry loop of `make_request`, counting attempts.  `transport n`
is the outcome of attempt number `n` (0-based); `fuel` is the number of
attempts the loop may still make (`adaptive_retries + 1` at entry).  The
result pairs the total number of attempts performed with the returned
response or the exception that escaped. -/
def makeRequestGo {α : Type} (transport : ℕ → Except String α) :
    ℕ → ℕ → ℕ × Except String α
  | attempt, 0 => (attempt, Except.error "max retries exceeded")
  | attempt, fuel + 1 =>
    match transport attempt with
    | Except.ok v => (attempt + 1, Except.ok v)
    | Except.error e =>
      if fuel = 0 then (attempt + 1, Except.error e)
      else makeRequestGo transport (attempt + 1) fuel

/-- `AsyncSessionManager.make_request` on a given transport, at a given
global failure rate and configured `max_retries`: the loop runs while
`retries ≤ adaptive_retries`, so up to `adaptive_retries + 1` attempts. -/
def make_request {α : Type} (transport : ℕ → Except String α)
    (global_failure_rate : ℚ) (max_retries : ℤ) : ℕ × Except String α :=
  makeRequestGo transport 0 ((calculateAdaptiveRetries global_failure_rate max_retries + 1).toNat)

/-! ### `close_all` (both session managers) -/

/-- A session handle, abstracted to whether its `close()` raises. -/
def tryClose (raises : Bool) : Except String Unit :=
  if raises then Except.error "close error" else Except.ok ()

/-- `SessionManager.close_all` (sync): close every session in order with
no exception handling, then clear the dict.  The first close that raises
propagates and the clear is never reached. -/
def closeAllSync : List Bool → Except String (List Bool)
  | [] => Except.ok []
  | raises :: rest =>
    match tryClose raises with
    | Except.error e => Except.error e
    | Except.ok _ => closeAllSync rest

/-- `AsyncSessionManager.close_all`: every session close and every
connector close is wrapped in `try/except: pass`, then both dicts are
cleared; no exception ever escapes. -/
def closeAllAsync (sessions connectors : List Bool) : Except String (List Bool × List Bool) :=
  let _ := sessions.map (fun b => match tryClose b with | _ => ())
  let _ := connectors.map (fun b => match tryClose b with | _ => ())
  Except.ok ([], [])

/-! ### Batch fan-out (`AsyncBongoCat.scrape_multiple`) -/

/-- Result of one slot of the batch: the per-URL task's value, or the
converted `Failure` record carrying the URL and exception message. -/
inductive BatchItem (α : Type) where
  | ok (r : α) : BatchItem α
  | err (url : String) (error : String) : BatchItem α
deriving Repr, DecidableEq

/-- Post-processing of one `asyncio.gather(…, return_exceptions := true)`
slot: an exception becomes an error record for that task's own URL. -/
def processTask {α : Type} (scrape : String → Except String α) (url : String) : BatchItem α :=
  match scrape url with
  | Except.ok r => BatchItem.ok r
  | Except.error e => BatchItem.err url e

/-- `AsyncBongoCat.scrape_multiple`: one task per URL, gathered with
`return_exceptions = True` (results in task-submission order), each slot
post-processed by index. -/
def scrape_multiple {α : Type} (scrape : String → Except String α)
    (urls : List String) : List (BatchItem α) :=
  if urls.isEmpty then [] else urls.map (processTask scrape)

/-! ### Concrete fixtures used by witnesses and counterexamples -/

/-- A per-URL fetch stub that fails only for `"u2"`. -/
def stubFailU2 : String → Except String String :=
  fun u => if u = "u2" then Except.error "boom" else Except.ok u

/-- A transport stub that raises on every attempt. -/
def alwaysFailTransport : ℕ → Except String ℤ :=
  fun _ => Except.error "connection refused"

/-- An adaptive-mode rate limiter about to record its 5th consecutive
success, with an inflated `current_delay` of 20s. -/
def rlAdaptive : RateLimiter :=
  { mkRateLimiter 1 5 with
    adaptive_mode := true
    current_delay := 20
    success_count := 4 }

/-- Per-session well-formedness of the sync manager's stats: failures are
only ever counted together with the request they belong to. -/
def StatsWF (stats : List (String × SessionStats)) : Prop :=
  ∀ p ∈ stats, p.2.failures ≤ p.2.requests_made

/-! ### Theorems -/

theorem monitorResponse_wf (now : ℚ) (status : ℤ) (elapsed : Option ℚ)
    (s : SessionStats) (h : s.failures ≤ s.requests_made) :
    (monitorResponse now status elapsed s).failures ≤
      (monitorResponse now status elapsed s).requests_made := by
  unfold monitorResponse
  cases elapsed <;> dsimp only <;> split_ifs <;> simp <;> omega

theorem updateStats_wf {P : SessionStats → Prop} (sid : String)
    (f : SessionStats → SessionStats) (hf : ∀ v, P v → P (f v))
    (hd : P (f SessionStats.default)) :
    ∀ l : List (String × SessionStats), (∀ p ∈ l, P p.2) →
      ∀ p ∈ updateStats sid f l, P p.2 := by
  intro l
  induction l with
  | nil =>
    intro _ p hp
    simp only [updateStats, List.mem_singleton] at hp
    subst hp
    exact hd
  | cons kv rest ih =>
    obtain ⟨k, v⟩ := kv
    intro hall p hp
    by_cases hk : k = sid
    · simp only [updateStats, if_pos hk, List.mem_cons] at hp
      rcases hp with rfl | hp
      · exact hf v (hall (k, v) (by simp))
      · exact hall p (by simp [hp])
    · simp only [updateStats, if_neg hk, List.mem_cons] at hp
      rcases hp with rfl | hp
      · exact hall (k, v) (by simp)
      · exact ih (fun q hq => hall q (by simp [hq])) p hp

theorem runSyncEvents_wf (es : List SyncEvent) : StatsWF (runSyncEvents es) := by
  have main : ∀ (es : List SyncEvent) (l : List (String × SessionStats)),
      StatsWF l → StatsWF (es.foldl applySyncEvent l) := by
    intro es
    induction es with
    | nil => intro l hl; exact hl
    | cons e rest ih =>
      intro l hl
      refine ih (applySyncEvent l e) ?_
      cases e with
      | response sid status elapsed now =>
        exact updateStats_wf sid (monitorResponse now status elapsed)
          (fun v hv => monitorResponse_wf now status elapsed v hv)
          (monitorResponse_wf now status elapsed SessionStats.default (by rfl)) l hl
  have : StatsWF ([] : List (String × SessionStats)) := by
    intro p hp
    simp at hp
  exact main es [] this

theorem totalFailures_le_totalRequests (stats : List (String × SessionStats))
    (h : StatsWF stats) : totalFailures stats ≤ totalRequests stats :=
  List.sum_le_sum fun p hp => h p hp

theorem updateGlobalFailureRate_nonneg (stats : List (String × SessionStats)) :
    0 ≤ updateGlobalFailureRate stats := by
  unfold updateGlobalFailureRate
  split_ifs
  · positivity
  · exact le_refl 0

/-- Counterexample to C1 as stated: on the async manager, one successful
request followed by two exception-path failures (each recorded by
`_monitor_failure`, which does not count a request) drives the derived
global failure rate to 2, outside `[0, 1]`. -/
theorem async_failure_rate_exceeds_one :
    updateGlobalFailureRate (runAsyncEvents
      [AsyncEvent.response "default" 200 1 0,
       AsyncEvent.failure "default" 1,
       AsyncEvent.failure "default" 2]) = 2 ∧
    ¬updateGlobalFailureRate (runAsyncEvents
      [AsyncEvent.response "default" 200 1 0,
       AsyncEvent.failure "default" 1,
       AsyncEvent.failure "default" 2]) ≤ 1 := by
  have h : runAsyncEvents
      [AsyncEvent.response "default" 200 1 0,
       AsyncEvent.failure "default" 1,
       AsyncEvent.failure "default" 2] =
      [("default",
        { requests_made := 1, failures := 2, avg_response_time := 1,
          last_failure_time := some 2, consecutive_failures := 2 })] := by
    norm_num [runAsyncEvents, applyAsyncEvent, updateStats, monitorResponseAsync,
      monitorResponse, monitorFailure, SessionStats.default]
  rw [h]
  norm_num [updateGlobalFailureRate, totalRequests, totalFailures]

/-- Claim C1 (amended): the derived global failure rate is 0 when no
requests were recorded and non-negative always, on both managers; on the
synchronous manager it moreover never exceeds 1, but on the async manager
exception-path failures can push it above 1. -/
theorem global_failure_rate_bounds :
    (∀ es : List SyncEvent,
      0 ≤ updateGlobalFailureRate (runSyncEvents es) ∧
      updateGlobalFailureRate (runSyncEvents es) ≤ 1) ∧
    updateGlobalFailureRate (runSyncEvents []) = 0 ∧
    (∀ es : List AsyncEvent, 0 ≤ updateGlobalFailureRate (runAsyncEvents es)) ∧
    updateGlobalFailureRate (runAsyncEvents []) = 0 := by
  refine ⟨fun es => ⟨updateGlobalFailureRate_nonneg _, ?_⟩, rfl,
    fun es => updateGlobalFailureRate_nonneg _, rfl⟩
  have hwf := runSyncEvents_wf es
  have hle := totalFailures_le_totalRequests _ hwf
  unfold updateGlobalFailureRate
  split_ifs with hpos
  · rw [div_le_one (by exact_mod_cast hpos)]
    exact_mod_cast hle
  · norm_num


/-- Claim C6: for every failure rate and base retry count, the adaptive
retry count follows the three tiers `max 1 (base−1)` / `base` /
`min (base+2) 10` at thresholds 0.1 and 0.3, and both managers' adaptive
backoff factors are monotonically non-decreasing in the failure rate. -/
theorem adaptive_tier_spec :
    (∀ (f : ℚ) (b : ℤ),
      (f < 1 / 10 → calculateAdaptiveRetries f b = max 1 (b - 1)) ∧
      (1 / 10 ≤ f → f < 3 / 10 → calculateAdaptiveRetries f b = b) ∧
      (3 / 10 ≤ f → calculateAdaptiveRetries f b = min (b + 2) 10)) ∧
    (∀ f g : ℚ, f ≤ g →
      calculateAdaptiveBackoff f ≤ calculateAdaptiveBackoff g ∧
      calculateAdaptiveBackoffAsync f ≤ calculateAdaptiveBackoffAsync g) := by
  constructor
  · intro f b
    refine ⟨fun h => ?_, fun h1 h2 => ?_, fun h => ?_⟩
    · unfold calculateAdaptiveRetries
      rw [if_pos h]
    · unfold calculateAdaptiveRetries
      rw [if_neg (not_lt.mpr h1), if_pos h2]
    · have h1 : ¬(f < 1 / 10) := not_lt.mpr (le_trans (by norm_num) h)
      unfold calculateAdaptiveRetries
      rw [if_neg h1, if_neg (not_lt.mpr h)]
  · intro f g hfg
    constructor <;>
      · simp only [calculateAdaptiveBackoff, calculateAdaptiveBackoffAsync]
        split_ifs <;> norm_num <;> linarith

/-- Witness for C6 at concrete inputs: a rate of 0.2 with base 2 gives 2
retries, and the backoff at rate 0.5 dominates the backoff at 0.05. -/
theorem adaptive_tier_spec_witness :
    calculateAdaptiveRetries (1 / 5) 2 = 2 ∧
    calculateAdaptiveBackoff (1 / 20) ≤ calculateAdaptiveBackoff (1 / 2) ∧
    calculateAdaptiveBackoffAsync (1 / 20) ≤ calculateAdaptiveBackoffAsync (1 / 2) :=
  ⟨(adaptive_tier_spec.1 (1 / 5) 2).2.1 (by norm_num) (by norm_num),
   (adaptive_tier_spec.2 (1 / 20) (1 / 2) (by norm_num)).1,
   (adaptive_tier_spec.2 (1 / 20) (1 / 2) (by norm_num)).2⟩

/-- Claim C8: in adaptive mode, `report_failure` multiplies the current
delay by 2.0 for status 429, by 1.5 for 502/503/504 and by 1.2 otherwise,
capping at 30s and resetting the success streak; `report_success`
multiplies the delay by 0.9 (floored at the target interval) exactly on
every 5th consecutive success. -/
theorem adaptive_report_spec (rl : RateLimiter) (h : rl.adaptive_mode = true) :
    ((RateLimiter.report_failure (some 429) rl).current_delay =
      min (rl.current_delay * 2) 30) ∧
    (∀ c : ℤ, c = 502 ∨ c = 503 ∨ c = 504 →
      (RateLimiter.report_failure (some c) rl).current_delay =
        min (rl.current_delay * (3 / 2)) 30) ∧
    (∀ c : Option ℤ, c ≠ some 429 → c ≠ some 502 → c ≠ some 503 → c ≠ some 504 →
      (RateLimiter.report_failure c rl).current_delay =
        min (rl.current_delay * (6 / 5)) 30) ∧
    (∀ c : Option ℤ, (RateLimiter.report_failure c rl).success_count = 0) ∧
    ((RateLimiter.report_success rl).current_delay =
      if 5 ≤ rl.success_count + 1 then max rl.min_interval (rl.current_delay * (9 / 10))
      else rl.current_delay) ∧
    ((RateLimiter.report_success rl).success_count =
      if 5 ≤ rl.success_count + 1 then 0 else rl.success_count + 1) := by
  refine ⟨?_, ?_, ?_, ?_, ?_, ?_⟩
  · simp [RateLimiter.report_failure, h]
  · intro c hc
    rcases hc with rfl | rfl | rfl <;> simp [RateLimiter.report_failure, h]
  · intro c h429 h502 h503 h504
    simp [RateLimiter.report_failure, h, h429, h502, h503, h504]
  · intro c
    simp only [RateLimiter.report_failure, h, if_true]
  · simp only [RateLimiter.report_success, h, if_true]
    split_ifs <;> rfl
  · simp only [RateLimiter.report_success, h, if_true]
    split_ifs <;> rfl

/-- Witness for C8: on the adaptive limiter with delay 20s, a 429 doubles
to 40 and caps at 30; the 5th consecutive success shrinks 20 to 18. -/
theorem adaptive_report_spec_witness :
    (RateLimiter.report_failure (some 429) rlAdaptive).current_delay = 30 ∧
    (RateLimiter.report_success rlAdaptive).current_delay = 18 := by
  have h := adaptive_report_spec rlAdaptive rfl
  constructor
  · rw [h.1]; norm_num [rlAdaptive]
  · rw [h.2.2.2.2.1]; norm_num [rlAdaptive, mkRateLimiter]

/-- Claim C10: `set_rate` recomputes the target interval (`1/r` for
`r > 0`, else 0) but leaves the adaptive delay untouched while adaptive
mode is on; the delay is reset to the target interval only when adaptive
mode is off, or by disabling adaptive mode. -/
theorem set_rate_frame_spec (rl : RateLimiter) (r : ℚ) :
    ((RateLimiter.set_rate r rl).requests_per_second = r) ∧
    ((RateLimiter.set_rate r rl).min_interval = if 0 < r then 1 / r else 0) ∧
    (rl.adaptive_mode = true →
      (RateLimiter.set_rate r rl).current_delay = rl.current_delay) ∧
    (rl.adaptive_mode = false →
      (RateLimiter.set_rate r rl).current_delay = (if 0 < r then 1 / r else 0)) ∧
    ((RateLimiter.disable_adaptive_mode rl).adaptive_mode = false) ∧
    ((RateLimiter.disable_adaptive_mode rl).current_delay = rl.min_interval) := by
  cases h : rl.adaptive_mode <;>
    simp [RateLimiter.set_rate, RateLimiter.disable_adaptive_mode, h]

/-- Witness for C10: setting a 4 req/s rate on the adaptive limiter keeps
the 20s delay and updates the interval; on a fresh fixed-mode limiter it
resets the delay to 1/4. -/
theorem set_rate_frame_spec_witness :
    (RateLimiter.set_rate 4 rlAdaptive).current_delay = 20 ∧
    (RateLimiter.set_rate 4 rlAdaptive).min_interval = 1 / 4 ∧
    (RateLimiter.set_rate 4 (mkRateLimiter 1 5)).current_delay = 1 / 4 := by
  refine ⟨?_, ?_, ?_⟩
  · rw [(set_rate_frame_spec rlAdaptive 4).2.2.1 rfl]; rfl
  · rw [(set_rate_frame_spec rlAdaptive 4).2.1]; norm_num
  · rw [(set_rate_frame_spec (mkRateLimiter 1 5) 4).2.2.2.1 rfl]; norm_num

/-- Claim C2: the batch fan-out returns exactly one result per input URL
in input order; slot `i` is determined by `urls[i]` alone — an exception
becomes a `Failure` record carrying that URL and the exception's message,
and every result is a value, never a propagated exception. -/
theorem scrape_multiple_spec {α : Type} (scrape : String → Except String α)
    (urls : List String) (h : urls ≠ []) :
    (scrape_multiple scrape urls).length = urls.length ∧
    ∀ (i : ℕ) (u : String), urls[i]? = some u →
      (scrape_multiple scrape urls)[i]? = some (processTask scrape u) := by
  have he : urls.isEmpty = false := by
    cases urls with
    | nil => exact absurd rfl h
    | cons a l => rfl
  constructor
  · simp [scrape_multiple, he]
  · intro i u hu
    simp [scrape_multiple, he, List.getElem?_map, hu]

/-- Witness for C2 on the spec's own example: `["u1","u2","u3"]` with a
stub failing only on `"u2"` gives three results in order, with slot 1 a
`Failure` for `"u2"` and slots 0 and 2 untouched successes. -/
theorem scrape_multiple_spec_witness :
    (scrape_multiple stubFailU2 ["u1", "u2", "u3"]).length = 3 ∧
    (scrape_multiple stubFailU2 ["u1", "u2", "u3"])[0]? = some (BatchItem.ok "u1") ∧
    (scrape_multiple stubFailU2 ["u1", "u2", "u3"])[1]? =
      some (BatchItem.err "u2" "boom") ∧
    (scrape_multiple stubFailU2 ["u1", "u2", "u3"])[2]? = some (BatchItem.ok "u3") := by
  have h := scrape_multiple_spec stubFailU2 ["u1", "u2", "u3"] (by decide)
  refine ⟨by rw [h.1]; rfl, ?_, ?_, ?_⟩
  · rw [h.2 0 "u1" rfl]; rfl
  · rw [h.2 1 "u2" rfl]; rfl
  · rw [h.2 2 "u3" rfl]; rfl

/-- The retry loop on an all-failing transport performs exactly `fuel`
attempts and re-raises the exception of the last attempt. -/
theorem makeRequestGo_all_fail {α : Type} (transport : ℕ → Except String α)
    (err : ℕ → String) (h : ∀ n, transport n = Except.error (err n)) :
    ∀ fuel attempt, makeRequestGo transport attempt (fuel + 1) =
      (attempt + fuel + 1, Except.error (err (attempt + fuel))) := by
  intro fuel
  induction fuel with
  | zero => intro attempt; simp [makeRequestGo, h]
  | succ f ih =>
    intro attempt
    have step : makeRequestGo transport attempt (f + 1 + 1) =
        makeRequestGo transport (attempt + 1) (f + 1) := by
      simp [makeRequestGo, h]
    rw [step, ih]
    have e1 : attempt + 1 + f = attempt + (f + 1) := by omega
    rw [e1]

/-- Counterexample to C3 as stated: on a fresh manager (global failure
rate 0) with `max_retries = 2`, an always-failing transport sees exactly
2 attempts, not 3, because the adaptive tier lowers the budget to
`max 1 (2−1) = 1` retry. -/
theorem make_request_two_attempts_at_default_rate :
    (make_request alwaysFailTransport 0 2).1 = 2 ∧
    ¬(make_request alwaysFailTransport 0 2).1 = 3 ∧
    (make_request alwaysFailTransport 0 2).2 = Except.error "connection refused" := by
  have hb : ((calculateAdaptiveRetries 0 2 + 1)).toNat = 1 + 1 := by
    have h0 : calculateAdaptiveRetries 0 2 = 1 := by norm_num [calculateAdaptiveRetries]
    rw [h0]
    rfl
  unfold make_request
  rw [hb, makeRequestGo_all_fail alwaysFailTransport (fun _ => "connection refused")
    (fun _ => rfl) 1 0]
  norm_num

/-- Claim C3 (amended): with `max_retries = 2` and an always-failing
transport, the total number of attempts is `adaptive_retries + 1`:
2 below failure rate 0.1, exactly 3 (1 initial + 2 retries) on the
middle tier `0.1 ≤ rate < 0.3`, and 5 above — and in every case the call
terminates with a Failure carrying the last attempt's exception. -/
theorem make_request_retry_exhaustion {α : Type} (transport : ℕ → Except String α)
    (err : ℕ → String) (h : ∀ n, transport n = Except.error (err n)) (f : ℚ) :
    ((make_request transport f 2).1 =
      if f < 1 / 10 then 2 else if f < 3 / 10 then 3 else 5) ∧
    ((make_request transport f 2).2 =
      Except.error (err ((make_request transport f 2).1 - 1))) ∧
    (1 / 10 ≤ f → f < 3 / 10 →
      (make_request transport f 2).1 = 3 ∧
      (make_request transport f 2).2 = Except.error (err 2)) := by
  have hgo := makeRequestGo_all_fail transport err h
  have hstep : ∀ k : ℕ, ((calculateAdaptiveRetries f 2 + 1)).toNat = k + 1 →
      make_request transport f 2 = (k + 1, Except.error (err k)) := by
    intro k hk
    unfold make_request
    rw [hk, hgo k 0]
    simp
  have hval : make_request transport f 2 =
      ((if f < 1 / 10 then 2 else if f < 3 / 10 then 3 else 5 : ℕ),
        Except.error (err ((if f < 1 / 10 then 2 else if f < 3 / 10 then 3 else 5) - 1))) := by
    by_cases h1 : f < 1 / 10
    · simp only [if_pos h1]
      exact hstep 1 (by unfold calculateAdaptiveRetries; rw [if_pos h1]; rfl)
    · by_cases h2 : f < 3 / 10
      · simp only [if_neg h1, if_pos h2]
        exact hstep 2 (by unfold calculateAdaptiveRetries; rw [if_neg h1, if_pos h2]; rfl)
      · simp only [if_neg h1, if_neg h2]
        exact hstep 4 (by unfold calculateAdaptiveRetries; rw [if_neg h1, if_neg h2]; rfl)
  refine ⟨by rw [hval], by rw [hval], fun ha hb => ?_⟩
  rw [hval]
  simp only [if_neg (not_lt.mpr ha), if_pos hb]
  exact ⟨trivial, trivial⟩

/-- Witness for C3 (amended) at rate 0.2 on the middle tier: exactly
3 attempts, then a Failure carrying the last attempt's exception. -/
theorem make_request_retry_exhaustion_witness :
    (make_request alwaysFailTransport (1 / 5) 2).1 = 3 ∧
    (make_request alwaysFailTransport (1 / 5) 2).2 =
      Except.error "connection refused" :=
  (make_request_retry_exhaustion alwaysFailTransport (fun _ => "connection refused")
    (fun _ => rfl) (1 / 5)).2.2 (by norm_num) (by norm_num)

/-- Claim C4 at its failing input: a pool validated healthy at time 0
whose single proxy has gone bad is asked for a proxy at time 301; the
lazy revalidation empties the healthy partition and `random.choice([])`
raises `IndexError` instead of the contract's `None`. -/
theorem get_proxy_revalidation_index_error :
    (ProxyHandler.get_proxy (fun _ => false) 301 0
      (mkProxyHandler (fun _ => true) 0 ["p1"])).1 = GetProxyResult.indexError := by
  have hmk : mkProxyHandler (fun _ => true) 0 ["p1"] =
      { proxy_list := ["p1"], working_proxies := ["p1"], failed_proxies := [],
        last_validation := 0, validation_interval := 300 } := by
    simp [mkProxyHandler, validateProxies]
  rw [hmk]
  norm_num [ProxyHandler.get_proxy, validateProxies, randomChoice]

/-- Counterexample to C5 as stated: on the synchronous `SessionManager`,
`close_all` propagates the exception of an individual session close
(there is no `try/except` around the loop). -/
theorem close_all_sync_raises :
    closeAllSync [true] = Except.error "close error" := rfl

/-- Claim C5 (amended): the async manager's `close_all` never raises —
errors of individual closes are swallowed — and a second call after a
successful first call also does not raise on either manager; but the sync
manager's `close_all` only avoids raising when every individual close
succeeds. -/
theorem close_all_spec :
    (∀ s c : List Bool, closeAllAsync s c = Except.ok ([], [])) ∧
    (∀ l : List Bool, (∀ b ∈ l, b = false) → closeAllSync l = Except.ok []) ∧
    (∀ l l' : List Bool, closeAllSync l = Except.ok l' → closeAllSync l' = Except.ok []) := by
  have honly : ∀ (m : List Bool) (m' : List Bool),
      closeAllSync m = Except.ok m' → m' = [] := by
    intro m
    induction m with
    | nil =>
      intro m' hm
      simpa [closeAllSync] using hm.symm
    | cons b rest ih =>
      intro m' hm
      cases b with
      | true => simp [closeAllSync, tryClose] at hm
      | false =>
        simp only [closeAllSync, tryClose, if_neg Bool.false_ne_true] at hm
        exact ih m' hm
  refine ⟨fun s c => rfl, ?_, ?_⟩
  · intro l hl
    induction l with
    | nil => rfl
    | cons b rest ih =>
      have hb : b = false := hl b (by simp)
      subst hb
      simp only [closeAllSync, tryClose, if_neg Bool.false_ne_true]
      exact ih fun x hx => hl x (by simp [hx])
  · intro l l' hl
    have := honly l l' hl
    subst this
    rfl

/-- Witness for C5 (amended): the async manager closes a pool containing
a raising handle without error, a sync pool of well-behaved handles
closes cleanly, and the second call after that success is also clean. -/
theorem close_all_spec_witness :
    closeAllAsync [true, false] [true] = Except.ok ([], []) ∧
    closeAllSync [false, false] = Except.ok [] ∧
    closeAllSync ([] : List Bool) = Except.ok [] :=
  ⟨close_all_spec.1 [true, false] [true],
   close_all_spec.2.1 [false, false] (by decide),
   close_all_spec.2.2 [false, false] [] (close_all_spec.2.1 [false, false] (by decide))⟩

/-- Counterexample to C9 as stated: adding a proxy to an empty pool puts
it in the base pool but in neither partition, so the base pool is not
the union of the healthy and unhealthy partitions after `add_proxy`. -/
theorem add_proxy_union_counterexample :
    "p1" ∈ (ProxyHandler.add_proxy "p1" (mkProxyHandler (fun _ => true) 0 [])).proxy_list ∧
    "p1" ∉ (ProxyHandler.add_proxy "p1" (mkProxyHandler (fun _ => true) 0 [])).working_proxies ∧
    "p1" ∉ (ProxyHandler.add_proxy "p1" (mkProxyHandler (fun _ => true) 0 [])).failed_proxies := by
  decide

/-- Claim C9 (amended): a validation pass repartitions the base pool so
that it equals the union of the two partitions; `remove_proxy` purges the
proxy from the base pool and both partitions immediately; `add_proxy`
extends only the base pool, leaving both partitions unchanged until the
next validation; and `get_proxy` changes the pool state only by running a
validation pass. -/
theorem proxy_pool_partition_spec :
    (∀ (probe : String → Bool) (now : ℚ) (p : ProxyHandler) (x : String),
      x ∈ (validateProxies probe now p).proxy_list ↔
        x ∈ (validateProxies probe now p).working_proxies ∨
        x ∈ (validateProxies probe now p).failed_proxies) ∧
    (∀ (q : String) (p : ProxyHandler),
      (ProxyHandler.remove_proxy q p).proxy_list = p.proxy_list.erase q ∧
      (ProxyHandler.remove_proxy q p).working_proxies = p.working_proxies.erase q ∧
      (ProxyHandler.remove_proxy q p).failed_proxies = p.failed_proxies.erase q) ∧
    (∀ (q : String) (p : ProxyHandler),
      (ProxyHandler.add_proxy q p).working_proxies = p.working_proxies ∧
      (ProxyHandler.add_proxy q p).failed_proxies = p.failed_proxies) ∧
    (∀ (probe : String → Bool) (now : ℚ) (pick : ℕ) (p : ProxyHandler),
      (ProxyHandler.get_proxy probe now pick p).2 = p ∨
      (ProxyHandler.get_proxy probe now pick p).2 = validateProxies probe now p) := by
  refine ⟨?_, ?_, ?_, ?_⟩
  · intro probe now p x
    simp only [validateProxies, List.mem_filter]
    cases hp : probe x <;> simp [hp]
  · intro q p
    refine ⟨?_, ?_, ?_⟩ <;>
      · simp only [ProxyHandler.remove_proxy]
        split_ifs with hm
        · rfl
        · exact (List.erase_of_not_mem hm).symm
  · intro q p
    simp only [ProxyHandler.add_proxy]
    split_ifs <;> simp
  · intro probe now pick p
    by_cases h1 : p.working_proxies = []
    · left; simp [ProxyHandler.get_proxy, h1]
    · by_cases h2 : p.validation_interval < now - p.last_validation
      · right
        simp only [ProxyHandler.get_proxy, if_neg h1, if_pos h2]
        rcases hr : randomChoice pick (validateProxies probe now p).working_proxies with _ | q <;>
          simp [hr]
      · left
        simp only [ProxyHandler.get_proxy, if_neg h1, if_neg h2]
        rcases hr : randomChoice pick p.working_proxies with _ | q <;> simp [hr]

theorem updateBurstTracking_fst_ge (now : ℚ) (rl : RateLimiter) :
    now ≤ (updateBurstTracking now rl).1 := by
  unfold updateBurstTracking
  dsimp only
  split_ifs <;> norm_num

theorem updateBurstTracking_snd_fields (now : ℚ) (rl : RateLimiter) :
    (updateBurstTracking now rl).2.min_interval = rl.min_interval ∧
    (updateBurstTracking now rl).2.adaptive_mode = rl.adaptive_mode := ⟨rfl, rfl⟩

theorem wait_fst_ge (now : ℚ) (rl : RateLimiter) (h : rl.adaptive_mode = false) :
    rl.last_request_time + rl.min_interval ≤ (RateLimiter.wait now rl).1 := by
  unfold RateLimiter.wait
  simp only [h, Bool.false_eq_true, if_false]
  split_ifs with hlt
  · have hb := updateBurstTracking_fst_ge
      (now + (rl.min_interval - (now - rl.last_request_time))) rl
    linarith
  · have hb := updateBurstTracking_fst_ge now rl
    push_neg at hlt
    linarith

theorem wait_snd_fields (now : ℚ) (rl : RateLimiter) :
    (RateLimiter.wait now rl).2.last_request_time = (RateLimiter.wait now rl).1 ∧
    (RateLimiter.wait now rl).2.min_interval = rl.min_interval ∧
    (RateLimiter.wait now rl).2.adaptive_mode = rl.adaptive_mode := ⟨rfl, rfl, rfl⟩

theorem runWaits_spread (ds : List ℚ) :
    ∀ (rl : RateLimiter) (prev x y : ℚ), rl.adaptive_mode = false →
      (runWaits rl prev ds).head? = some x →
      (runWaits rl prev ds).getLast? = some y →
      x + ((ds.length : ℚ) - 1) * rl.min_interval ≤ y := by
  induction ds with
  | nil =>
    intro rl prev x y _ hx _
    simp [runWaits] at hx
  | cons d ds ih =>
    intro rl prev x y had hx hy
    simp only [runWaits, List.head?_cons, Option.some_inj] at hx
    subst hx
    cases hds : ds with
    | nil =>
      rw [hds] at hy
      simp only [runWaits, List.getLast?_singleton, Option.some_inj] at hy
      subst hy
      simp
    | cons d2 ds2 =>
      rw [hds] at hy
      simp only [runWaits, List.getLast?_cons_cons] at hy
      have hy2 : (runWaits (RateLimiter.wait (prev + d) rl).2
          (RateLimiter.wait (prev + d) rl).1 (d2 :: ds2)).getLast? = some y := by
        simpa [runWaits] using hy
      have hx2 : (runWaits (RateLimiter.wait (prev + d) rl).2
          (RateLimiter.wait (prev + d) rl).1 (d2 :: ds2)).head? =
          some (RateLimiter.wait ((RateLimiter.wait (prev + d) rl).1 + d2)
            (RateLimiter.wait (prev + d) rl).2).1 := by
        simp [runWaits]
      have had2 : (RateLimiter.wait (prev + d) rl).2.adaptive_mode = false :=
        (wait_snd_fields (prev + d) rl).2.2.trans had
      have hih := ih (RateLimiter.wait (prev + d) rl).2
        (RateLimiter.wait (prev + d) rl).1
        (RateLimiter.wait ((RateLimiter.wait (prev + d) rl).1 + d2)
          (RateLimiter.wait (prev + d) rl).2).1 y had2 (hds ▸ hx2) (hds ▸ hy2)
      rw [(wait_snd_fields (prev + d) rl).2.1] at hih
      have hstep : (RateLimiter.wait (prev + d) rl).2.last_request_time +
          (RateLimiter.wait (prev + d) rl).2.min_interval ≤
          (RateLimiter.wait ((RateLimiter.wait (prev + d) rl).1 + d2)
            (RateLimiter.wait (prev + d) rl).2).1 :=
        wait_fst_ge _ _ had2
      rw [(wait_snd_fields (prev + d) rl).1, (wait_snd_fields (prev + d) rl).2.1] at hstep
      have hlen : ((ds.length : ℚ)) = (ds2.length : ℚ) + 1 := by
        rw [hds, List.length_cons]
        push_cast
        ring
      rw [hlen] at hih
      simp only [List.length_cons]
      push_cast
      linarith [hih, hstep]

/-- Claim C7: in fixed mode with configured rate `r > 0`, any `N`
sequential `wait()` calls finish at times at least `1/r` apart, so the
wall-clock time between the first and the last permitted request is at
least `(N−1)/r`, whatever the callers' idle gaps between the calls. -/
theorem rate_limiter_sequential_waits (r : ℚ) (burst : ℕ) (start x y : ℚ)
    (ds : List ℚ) (hr : 0 < r)
    (hx : (runWaits (mkRateLimiter r burst) start ds).head? = some x)
    (hy : (runWaits (mkRateLimiter r burst) start ds).getLast? = some y) :
    ((ds.length : ℚ) - 1) / r ≤ y - x := by
  have h := runWaits_spread ds (mkRateLimiter r burst) start x y rfl hx hy
  have hmin : (mkRateLimiter r burst).min_interval = 1 / r := by
    simp [mkRateLimiter, hr]
  rw [hmin] at h
  rw [div_eq_mul_one_div]
  linarith

/-- Witness for C7: at 1 req/s, two back-to-back `wait()` calls starting
at time 5 finish at times 5 and 6, and the theorem's bound
`(2−1)/1 ≤ 6 − 5` holds there. -/
theorem rate_limiter_sequential_waits_witness :
    (((2 : ℚ) - 1) / 1 ≤ (6 : ℚ) - 5) ∧
    (runWaits (mkRateLimiter 1 5) 5 [0, 0]).head? = some 5 ∧
    (runWaits (mkRateLimiter 1 5) 5 [0, 0]).getLast? = some 6 := by
  have hx : (runWaits (mkRateLimiter 1 5) 5 [0, 0]).head? = some 5 := by
    norm_num [runWaits, RateLimiter.wait, updateBurstTracking, dequeAppend,
      mkRateLimiter, List.dropWhile]
  have hy : (runWaits (mkRateLimiter 1 5) 5 [0, 0]).getLast? = some 6 := by
    norm_num [runWaits, RateLimiter.wait, updateBurstTracking, dequeAppend,
      mkRateLimiter, List.dropWhile]
  have h := rate_limiter_sequential_waits 1 5 5 5 6 [0, 0] (by norm_num) hx hy
  refine ⟨?_, hx, hy⟩
  simpa using h

end Bongocat
